import Mathlib

/-!
# Verification of the Tanda Workforce MCP gateway's auth core

Shallow embedding of the OAuth broker (`src/auth/oauth.ts`), the HTTP route
handlers that drive it (`src/server/app.ts`), the auth-resolution middleware
(`src/auth/middleware.ts`), the upstream API client's token handling
(`src/tanda/client.ts`), and the read-only tool gating (`src/mcp/tools.ts`,
`src/mcp/handler.ts`).

Conventions of the embedding:
* JavaScript `Date.now()` timestamps and durations are `Int` (all arithmetic
  in the source is on integral millisecond values).
* The global `Map` stores (`sessions`, `authCodes`) are association lists with
  unique keys; `Map.get/set/delete` become `storeGet`/`storeSet`/`storeDelete`,
  and mutation of a record retrieved from a `Map` (the source mutates the
  object in place) becomes `storeSet` of the updated record.
* `jwt.sign` produces a structured token rather than an opaque string; the
  signature is represented by carrying the signing secret.
* Network calls (`exchangeCodeForToken`, `getCurrentUser`, the refresh POST)
  are oracle parameters; functions that can reach the network additionally
  report whether the call was attempted, so that "rejected before any
  upstream call" is a provable statement.
-/

namespace Tanda

/-- Constant `AUTH_CODE_TTL_MS` from `src/auth/oauth.ts`: codes expire after 10 minutes. -/
def AUTH_CODE_TTL_MS : Int := 10 * 60 * 1000

/-- Constant `SESSION_TTL_MS` from `src/auth/oauth.ts`: sessions expire after 24 hours. -/
def SESSION_TTL_MS : Int := 24 * 60 * 60 * 1000

/-- The fields of `TandaUser` (`src/tanda/types.ts`) that the auth core reads. -/
structure TandaUser where
  id : Int
  name : String
  email : String
  deriving Repr, DecidableEq

/-- Record `TandaTokenResponse` (`src/tanda/types.ts`) as consumed by the auth core. -/
structure TandaTokenResponse where
  access_token : String
  refresh_token : String
  expires_in : Int
  deriving Repr, DecidableEq

/-- Record `SessionData` (`src/auth/oauth.ts`). Optional fields are `Option`. -/
structure SessionData where
  state : String
  createdAt : Int
  userId : Option Int := none
  accessToken : Option String := none
  refreshToken : Option String := none
  tokenExpiresAt : Option Int := none
  user : Option TandaUser := none
  clientRedirectUri : Option String := none
  clientState : Option String := none
  clientCodeChallenge : Option String := none
  deriving Repr, DecidableEq

/-- Record `AuthCodeData` (`src/auth/oauth.ts`). -/
structure AuthCodeData where
  sessionId : String
  createdAt : Int
  used : Bool
  deriving Repr, DecidableEq

/-- An in-memory `Map` keyed by strings: association list with unique keys. -/
abbrev Store (α : Type) : Type := List (String × α)

/-- Lookup, as `Map.get`. -/
def storeGet {α : Type} (k : String) : Store α → Option α
  | [] => none
  | (k', v) :: rest => if k' = k then some v else storeGet k rest

/-- Replacement of the record held under an existing key (the source mutates
the object obtained from `Map.get` in place). -/
def storeSet {α : Type} (k : String) (v : α) : Store α → Store α
  | [] => []
  | (k', v') :: rest =>
      if k' = k then (k', v) :: rest else (k', v') :: storeSet k v rest

/-- Insertion, as `Map.set` with a fresh key. -/
def storeInsert {α : Type} (k : String) (v : α) (s : Store α) : Store α :=
  (k, v) :: s

/-- Removal, as `Map.delete`. -/
def storeDelete {α : Type} (k : String) : Store α → Store α
  | [] => []
  | (k', v') :: rest =>
      if k' = k then rest else (k', v') :: storeDelete k rest

/-- Record `JWTPayload` (`src/auth/oauth.ts`). -/
structure JWTPayload where
  sessionId : String
  userId : Option Int := none
  email : Option String := none
  deriving Repr, DecidableEq

/-- A token produced by `jwt.sign(payload, secret, {expiresIn})`: the payload
plus the signing secret (standing for the signature) and the expiry instant. -/
structure SignedJWT where
  payload : JWTPayload
  secret : String
  expiresAt : Int
  deriving Repr, DecidableEq

/-- Config `JWT_EXPIRY` default of 24 hours, in milliseconds. -/
def JWT_EXPIRY_MS : Int := 24 * 60 * 60 * 1000

/-- Method `OAuthManager.generateJWT` (`src/auth/oauth.ts`). -/
def generateJWT (secret : String) (now : Int) (sessionId : String)
    (user : TandaUser) : SignedJWT :=
  { payload := { sessionId := sessionId, userId := some user.id,
                 email := some user.email },
    secret := secret,
    expiresAt := now + JWT_EXPIRY_MS }

/-- Method `OAuthManager.verifyJWT` (`src/auth/oauth.ts`): `jwt.verify` succeeds iff
the signature checks out against the configured secret and the token is not
expired; any failure yields `null`. -/
def verifyJWT (secret : String) (now : Int) (token : SignedJWT) :
    Option JWTPayload :=
  if token.secret = secret ∧ now < token.expiresAt then some token.payload
  else none

/-- Result type of `OAuthManager.exchangeAuthCode` (`src/auth/oauth.ts`):
`{ success: boolean; accessToken?: string; error?: string }`. -/
structure ExchangeAuthCodeResult where
  success : Bool
  accessToken : Option SignedJWT := none
  error : Option String := none
  deriving Repr, DecidableEq

/-- Method `OAuthManager.exchangeAuthCode` (`src/auth/oauth.ts`, lines 298–335),
as a transformer of the `authCodes` store. The source declares a single
`code` parameter: the `code_verifier` that `src/server/app.ts` passes as a
second argument is silently dropped at the call boundary, so no PKCE
comparison occurs anywhere in this routine. -/
def exchangeAuthCode (secret : String) (sessions : Store SessionData)
    (now : Int) (authCodes : Store AuthCodeData) (code : String) :
    ExchangeAuthCodeResult × Store AuthCodeData :=
  match storeGet code authCodes with
  | none =>
      ({ success := false, error := some "Invalid authorization code" },
       authCodes)
  | some authCodeData =>
      if authCodeData.used then
        -- Delete the code to prevent replay attacks
        ({ success := false, error := some "Authorization code already used" },
         storeDelete code authCodes)
      else if now - authCodeData.createdAt > AUTH_CODE_TTL_MS then
        ({ success := false, error := some "Authorization code expired" },
         storeDelete code authCodes)
      else
        -- Mark code as used (in-place mutation of the stored record)
        let authCodes' := storeSet code { authCodeData with used := true }
          authCodes
        match storeGet authCodeData.sessionId sessions with
        | none =>
            ({ success := false, error := some "Session not found" },
             authCodes')
        | some session =>
            match session.user with
            | none =>
                ({ success := false, error := some "Session not found" },
                 authCodes')
            | some user =>
                ({ success := true,
                   accessToken :=
                     some (generateJWT secret now authCodeData.sessionId user) },
                 authCodes')

/-- Method `OAuthManager.generateAuthCode` (`src/auth/oauth.ts`, lines 286–295).
The `code_challenge` that `src/server/app.ts` passes as a second argument has
no corresponding parameter and `AuthCodeData` has no field for it, so the
challenge is not stored with the code. -/
def generateAuthCode (freshCode : String) (sessionId : String) (now : Int)
    (authCodes : Store AuthCodeData) : String × Store AuthCodeData :=
  (freshCode,
   storeInsert freshCode { sessionId := sessionId, createdAt := now,
                           used := false } authCodes)

/-- JavaScript truthiness of an optional request-body string:
`undefined` and `""` are falsy. -/
def strPresent : Option String → Bool
  | none => false
  | some s => !s.isEmpty

/-- Response of `POST /token` (`src/server/app.ts`, lines 207–244). -/
inductive TokenEndpointResponse where
  | errorResp (status : Int) (error : String) (errorDescription : Option String)
  | tokenResp (accessToken : Option SignedJWT) (tokenType : String)
      (expiresIn : Int)
  deriving Repr, DecidableEq

/-- The `POST /token` handler (`src/server/app.ts`, lines 207–244).
The handler reads `code`, `grant_type` and `code_verifier` from the body and
calls `oauthManager.exchangeAuthCode(code, code_verifier)`; since the callee
declares no verifier parameter, `codeVerifier` is dropped there (JavaScript
ignores extra arguments at runtime). -/
def tokenEndpoint (secret : String) (sessions : Store SessionData) (now : Int)
    (authCodes : Store AuthCodeData) (grantType : Option String)
    (code : Option String) (codeVerifier : Option String) :
    TokenEndpointResponse × Store AuthCodeData :=
  if grantType ≠ some "authorization_code" then
    (.errorResp 400 "unsupported_grant_type"
      (some "Only authorization_code grant type is supported"), authCodes)
  else if !strPresent code then
    (.errorResp 400 "invalid_request" (some "Authorization code is required"),
     authCodes)
  else
    match code, codeVerifier with
    | some c, _ =>
        let (result, authCodes') := exchangeAuthCode secret sessions now
          authCodes c
        if result.success then
          (.tokenResp result.accessToken "Bearer" 86400, authCodes')
        else
          (.errorResp 400 "invalid_grant" result.error, authCodes')
    | none, _ =>
        (.errorResp 400 "invalid_request"
          (some "Authorization code is required"), authCodes)

/-- Record `AuthResult` (`src/auth/oauth.ts`). -/
structure AuthResult where
  success : Bool
  token : Option SignedJWT := none
  user : Option TandaUser := none
  error : Option String := none
  deriving Repr, DecidableEq

/-- Outcome of the upstream round trip performed inside `handleCallback`
(`exchangeCodeForToken` followed by `getCurrentUser`): either both network
calls succeed, or the `try` block throws. -/
inductive UpstreamOutcome where
  | ok (tokenResponse : TandaTokenResponse) (user : TandaUser)
  | fail (message : String)
  deriving Repr, DecidableEq

/-- Output of `handleCallback`: its return value, the session store after the
call, and whether the upstream code exchange was attempted. -/
structure CallbackOutput where
  result : AuthResult
  sessions : Store SessionData
  exchangeAttempted : Bool
  deriving Repr, DecidableEq

/-- Method `OAuthManager.handleCallback` (`src/auth/oauth.ts`, lines 112–165).
The upstream exchange + identity fetch is the oracle `upstream`; on success
the session record is mutated in place with tokens and identity. -/
def handleCallback (secret : String) (upstream : String → UpstreamOutcome)
    (sessions : Store SessionData) (now : Int) (sessionId : String)
    (code : String) (returnedState : String) : CallbackOutput :=
  match storeGet sessionId sessions with
  | none =>
      ⟨{ success := false, error := some "Invalid or expired session" },
       sessions, false⟩
  | some session =>
      if session.state ≠ returnedState then
        ⟨{ success := false,
           error := some "State mismatch - possible CSRF attack" },
         sessions, false⟩
      else
        match upstream code with
        | .fail message =>
            ⟨{ success := false, error := some message }, sessions, true⟩
        | .ok tokenResponse user =>
            let session' := { session with
              accessToken := some tokenResponse.access_token,
              refreshToken := some tokenResponse.refresh_token,
              tokenExpiresAt := some (now + tokenResponse.expires_in * 1000),
              userId := some user.id,
              user := some user }
            ⟨{ success := true,
               token := some (generateJWT secret now sessionId user),
               user := some user },
             storeSet sessionId session' sessions, true⟩

/-- Method `OAuthManager.createAuthSession` (`src/auth/oauth.ts`, lines 73–94); the
fresh uuids are parameters. -/
def createAuthSession (freshSessionId : String) (freshState : String)
    (now : Int) (clientRedirectUri : Option String)
    (clientState : Option String) (clientCodeChallenge : Option String)
    (sessions : Store SessionData) : (String × String) × Store SessionData :=
  ((freshSessionId, freshState),
   storeInsert freshSessionId
     { state := freshState, createdAt := now,
       clientRedirectUri := clientRedirectUri, clientState := clientState,
       clientCodeChallenge := clientCodeChallenge } sessions)

/-- Modelled from the spec: integrity checksum over the session identifier,
part of `OAuthManager.decodeStateSessionId`/the state encoding, which
`src/server/app.ts` (line 268) calls but which is absent from the
`OAuthManager` snapshot under `src/`. Spec §4.4/§9: "encode the session
identifier into the opaque state value ... reversible encoding with a short
integrity check". -/
def stateChecksumChar (sid : List Char) : Char :=
  Char.ofNat (97 + (sid.map Char.toNat).sum % 26)

/-- Modelled from the spec: the reversible state encoding — a one-character
integrity check, a separator, then the session identifier verbatim. -/
def encodeStateSessionId (sessionId : String) : String :=
  String.mk (stateChecksumChar sessionId.data :: '.' :: sessionId.data)

/-- Modelled from the spec: `OAuthManager.decodeStateSessionId` — recover the
session identifier from a state value, rejecting values whose integrity check
fails. -/
def decodeStateSessionId (state : String) : Option String :=
  match state.data with
  | c :: sep :: rest =>
      if sep = '.' ∧ c = stateChecksumChar rest then some (String.mk rest)
      else none
  | _ => none

/-- JavaScript truthiness of an optional string-valued variable. -/
def optTruthy : Option String → Bool
  | none => false
  | some s => !s.isEmpty

/-- Session resolution in `GET /auth/callback` (`src/server/app.ts`, lines
263–275): prefer the state-derived session id; fall back to the
`tanda_session` cookie only when a state was present but could not be
decoded. -/
def resolveCallbackSessionId (state : Option String)
    (cookieSessionId : Option String) : Option String :=
  let sessionId := if optTruthy state then state.bind decodeStateSessionId
    else none
  if !optTruthy sessionId ∧ optTruthy state then cookieSessionId
  else sessionId

/-- The mutable token state of a `TandaClient` instance
(`src/tanda/client.ts`, lines 40–63). -/
structure TandaClientState where
  accessToken : String
  refreshToken : Option String := none
  tokenExpiresAt : Option Int := none
  deriving Repr, DecidableEq

/-- Constructor `new TandaClient(accessToken, refreshToken?, expiresIn?)`
(`src/tanda/client.ts`, lines 46–63). `if (expiresIn)` is JavaScript
truthiness, so an `expiresIn` of 0 leaves the expiry unset. -/
def TandaClient.create (now : Int) (accessToken : String)
    (refreshToken : Option String) (expiresIn : Option Int) :
    TandaClientState :=
  { accessToken := accessToken, refreshToken := refreshToken,
    tokenExpiresAt :=
      match expiresIn with
      | some e => if e = 0 then none else some (now + e * 1000)
      | none => none }

/-- Method `TandaClient.refreshAccessToken` (`src/tanda/client.ts`, lines 103–119):
throws without a refresh token; otherwise POSTs to the token URL (the
response is the oracle `resp`) and installs the new tokens on `this` — and
nowhere else. -/
def refreshAccessToken (c : TandaClientState) (now : Int)
    (resp : TandaTokenResponse) : Except String TandaClientState :=
  match c.refreshToken with
  | none => .error "No refresh token available"
  | some _ =>
      .ok { c with accessToken := resp.access_token,
                   refreshToken := some resp.refresh_token,
                   tokenExpiresAt := some (now + resp.expires_in * 1000) }

/-- Method `OAuthManager.getTandaClient` (`src/auth/oauth.ts`, lines 248–259).
`!session?.accessToken` and `session.tokenExpiresAt ? ... : undefined` are
JavaScript truthiness; `Math.floor` on a possibly negative quotient is
`Int.fdiv`. -/
def getTandaClient (sessions : Store SessionData) (now : Int)
    (sessionId : String) : Option TandaClientState :=
  match storeGet sessionId sessions with
  | none => none
  | some session =>
      match session.accessToken with
      | none => none
      | some accessToken =>
          if accessToken.isEmpty then none
          else
            some (TandaClient.create now accessToken session.refreshToken
              (match session.tokenExpiresAt with
               | some t => if t = 0 then none else some ((t - now).fdiv 1000)
               | none => none))

/-- Record `req.auth` as attached by the middleware (`src/auth/middleware.ts`). -/
structure AuthContext where
  payload : JWTPayload
  sessionId : String
  tandaClient : TandaClientState
  deriving Repr, DecidableEq

/-- Output of `optionalAuth`: the attached auth context (if any) and the
number of upstream token-refresh requests issued while resolving it. -/
structure OptionalAuthOutput where
  auth : Option AuthContext
  upstreamRefreshCalls : Nat
  deriving Repr, DecidableEq

/-- Middleware `optionalAuth` (`src/auth/middleware.ts`, lines 71–89): verify the bearer
token, materialize a `TandaClient` from the session's stored tokens via
`getTandaClient`, attach it. No branch of this path issues an upstream
request — `getTandaClient` only constructs the client — so
`upstreamRefreshCalls` is 0 on every path. -/
def optionalAuth (secret : String) (sessions : Store SessionData) (now : Int)
    (bearerToken : Option SignedJWT) : OptionalAuthOutput :=
  match bearerToken with
  | none => ⟨none, 0⟩
  | some token =>
      match verifyJWT secret now token with
      | none => ⟨none, 0⟩
      | some payload =>
          match getTandaClient sessions now payload.sessionId with
          | none => ⟨none, 0⟩
          | some client => ⟨some ⟨payload, payload.sessionId, client⟩, 0⟩

/-- One authenticated request whose upstream call answers 401, triggering the
response interceptor's refresh-and-retry (`src/tanda/client.ts`, lines
79–101): the client for the session is materialized by `getTandaClient`,
`refreshAccessToken` updates that instance, and the session store is never
touched. The store is threaded through to expose its final value. -/
def requestWithUpstream401 (sessions : Store SessionData) (now : Int)
    (sessionId : String) (refreshResp : TandaTokenResponse) :
    Option TandaClientState × Store SessionData :=
  match getTandaClient sessions now sessionId with
  | none => (none, sessions)
  | some client =>
      match refreshAccessToken client now refreshResp with
      | .ok client' => (some client', sessions)
      | .error _ => (some client, sessions)

/-- Constant `WRITE_TOOLS` (`src/mcp/tools.ts`, lines 6–21). -/
def WRITE_TOOLS : List String :=
  ["tanda_create_schedule", "tanda_update_schedule", "tanda_delete_schedule",
   "tanda_publish_schedules", "tanda_approve_shift", "tanda_approve_timesheet",
   "tanda_create_leave_request", "tanda_approve_leave", "tanda_decline_leave",
   "tanda_delete_leave_request", "tanda_create_unavailability",
   "tanda_delete_unavailability", "tanda_onboard_users", "tanda_invite_user"]

/-- The names of the entries of `tandaTools` (`src/mcp/tools.ts`), in order.
Per the spec's scope (§1) the catalog entries are opaque named operations, so
only their names are embedded. -/
def tandaToolNames : List String :=
  ["tanda_get_current_user", "tanda_get_users", "tanda_get_user",
   "tanda_get_departments", "tanda_get_locations", "tanda_get_schedules",
   "tanda_create_schedule", "tanda_update_schedule", "tanda_delete_schedule",
   "tanda_publish_schedules", "tanda_get_shifts", "tanda_get_timesheets",
   "tanda_approve_shift", "tanda_approve_timesheet",
   "tanda_get_leave_requests", "tanda_create_leave_request",
   "tanda_approve_leave", "tanda_decline_leave", "tanda_delete_leave_request",
   "tanda_get_leave_balances", "tanda_get_unavailability",
   "tanda_create_unavailability", "tanda_delete_unavailability",
   "tanda_get_teams", "tanda_get_staff_by_department", "tanda_get_daily_stats",
   "tanda_get_active_shifts", "tanda_get_clocked_in_users",
   "tanda_get_shift_breaks", "tanda_get_shift_limits", "tanda_get_roster",
   "tanda_get_current_roster", "tanda_get_roster_by_date",
   "tanda_get_inactive_users", "tanda_onboard_users", "tanda_invite_user",
   "tanda_get_leave_types", "tanda_calculate_leave_hours",
   "tanda_get_award_interpretation", "tanda_get_roster_costs"]

/-- Predicate `isToolAllowed` (`src/mcp/tools.ts`, lines 821–826);
`config.MCP_READ_ONLY_MODE` is the parameter `readOnlyMode`. -/
def isToolAllowed (readOnlyMode : Bool) (toolName : String) : Bool :=
  if readOnlyMode && WRITE_TOOLS.contains toolName then false else true

/-- Function `getAvailableTools` (`src/mcp/tools.ts`, lines 829–834), projected to
tool names. -/
def getAvailableTools (readOnlyMode : Bool) : List String :=
  if readOnlyMode then
    tandaToolNames.filter (fun n => !WRITE_TOOLS.contains n)
  else tandaToolNames

/-- Outcome of `executeTool`: the `isError` flag of its return value and
whether any `client.*` upstream call was issued. -/
structure ToolExecOutcome where
  isError : Bool
  upstreamCalled : Bool
  errorMessage : Option String := none
  deriving Repr, DecidableEq

/-- Function `executeTool` (`src/mcp/tools.ts`, lines 837–852 plus the dispatch
`switch`): the read-only rejection precedes the `try` block and therefore any
upstream call; a known tool then invokes the upstream client (modelled as
succeeding); an unknown tool hits the `default` arm without an upstream
call. -/
def executeTool (readOnlyMode : Bool) (toolName : String) : ToolExecOutcome :=
  if readOnlyMode && WRITE_TOOLS.contains toolName then
    { isError := true, upstreamCalled := false,
      errorMessage := some ("Tool '" ++ toolName ++
        "' is not available in read-only mode. Write operations are disabled.") }
  else if tandaToolNames.contains toolName then
    { isError := false, upstreamCalled := true }
  else
    { isError := true, upstreamCalled := false,
      errorMessage := some ("Unknown tool: " ++ toolName) }

/-- JSON-RPC error codes (`src/mcp/handler.ts`). -/
def MCP_ERROR_INVALID_REQUEST : Int := -32600

def MCP_ERROR_METHOD_NOT_FOUND : Int := -32601

def MCP_ERROR_INVALID_PARAMS : Int := -32602

/-- Outcome of `tools/call` dispatch. -/
inductive CallToolOutcome where
  | protocolError (code : Int) (message : String)
  | toolResult (r : ToolExecOutcome)
  deriving Repr, DecidableEq

/-- Whether the `tools/call` outcome issued an upstream call. -/
def CallToolOutcome.calledUpstream : CallToolOutcome → Bool
  | .protocolError _ _ => false
  | .toolResult r => r.upstreamCalled

/-- Whether the `tools/call` outcome is a rejection (protocol error or a tool
result flagged `isError`). -/
def CallToolOutcome.rejected : CallToolOutcome → Bool
  | .protocolError _ _ => true
  | .toolResult r => r.isError

/-- Method `MCPHandler.handleCallTool` (`src/mcp/handler.ts`): tool name required,
authentication required, tool must exist in the catalog, then `executeTool`.
`authenticated` abstracts `tandaClient !== null`. -/
def handleCallTool (readOnlyMode : Bool) (authenticated : Bool)
    (toolName : Option String) : CallToolOutcome :=
  match toolName with
  | none => .protocolError MCP_ERROR_INVALID_PARAMS "Tool name is required"
  | some name =>
      if !authenticated then
        .protocolError MCP_ERROR_INVALID_REQUEST
          "Authentication required. Please authenticate with Tanda first."
      else if !tandaToolNames.contains name then
        .protocolError MCP_ERROR_METHOD_NOT_FOUND ("Tool not found: " ++ name)
      else .toolResult (executeTool readOnlyMode name)

/-- Method `MCPHandler.handleListTools` in the v3.0 handler (the `handler.ts`
revision importing `getAvailableTools`): the advertised catalog respects the
read-only flag. -/
def handleListTools (readOnlyMode : Bool) : List String :=
  getAvailableTools readOnlyMode

/-- The capability fields of the `GET /.well-known/oauth-authorization-server`
response (`src/server/app.ts`, lines 142–156); the URL fields derived from
the request's base URL are omitted. -/
structure AuthServerMetadata where
  response_types_supported : List String
  grant_types_supported : List String
  code_challenge_methods_supported : List String
  token_endpoint_auth_methods_supported : List String
  scopes_supported : List String
  deriving Repr, DecidableEq

/-- The discovery document body (`src/server/app.ts`, lines 142–156). -/
def oauthAuthorizationServerMetadata : AuthServerMetadata :=
  { response_types_supported := ["code"],
    grant_types_supported := ["authorization_code", "refresh_token"],
    code_challenge_methods_supported := ["S256"],
    token_endpoint_auth_methods_supported := ["none", "client_secret_post"],
    scopes_supported :=
      ["user", "department", "leave", "roster", "timesheet", "cost"] }

/-- Well-formedness of a store: keys are unique, as a JavaScript `Map`
guarantees. -/
def storeWF {α : Type} (s : Store α) : Prop := (s.map Prod.fst).Nodup

instance {α : Type} (s : Store α) : Decidable (storeWF s) := by
  unfold storeWF; infer_instance

theorem storeGet_storeSet_self {α : Type} {k : String} {v d : α}
    {s : Store α} (h : storeGet k s = some d) :
    storeGet k (storeSet k v s) = some v := by
  induction s with
  | nil => simp [storeGet] at h
  | cons p rest ih =>
      obtain ⟨k', v'⟩ := p
      by_cases hk : k' = k
      · simp [storeGet, storeSet, hk]
      · simp only [storeGet, storeSet, hk, if_false] at h ⊢
        exact ih h

theorem keys_storeSet {α : Type} (k : String) (v : α) (s : Store α) :
    (storeSet k v s).map Prod.fst = s.map Prod.fst := by
  induction s with
  | nil => rfl
  | cons p rest ih =>
      obtain ⟨k', v'⟩ := p
      by_cases hk : k' = k
      · simp [storeSet, hk]
      · simp [storeSet, hk, ih]

theorem storeGet_eq_none_of_not_mem {α : Type} {k : String} {s : Store α}
    (h : k ∉ s.map Prod.fst) : storeGet k s = none := by
  induction s with
  | nil => rfl
  | cons p rest ih =>
      obtain ⟨k', v'⟩ := p
      simp only [List.map_cons, List.mem_cons] at h
      push_neg at h
      simp only [storeGet, if_neg (Ne.symm h.1)]
      exact ih h.2

theorem storeGet_storeDelete_self {α : Type} {k : String} {s : Store α}
    (hwf : storeWF s) : storeGet k (storeDelete k s) = none := by
  induction s with
  | nil => rfl
  | cons p rest ih =>
      obtain ⟨k', v'⟩ := p
      simp only [storeWF, List.map_cons, List.nodup_cons] at hwf
      by_cases hk : k' = k
      · subst hk
        simp only [storeDelete, if_pos rfl]
        exact storeGet_eq_none_of_not_mem hwf.1
      · simp only [storeDelete, hk, if_false, storeGet]
        exact ih hwf.2

theorem storeWF_storeSet {α : Type} {k : String} {v : α} {s : Store α}
    (hwf : storeWF s) : storeWF (storeSet k v s) := by
  unfold storeWF
  rw [keys_storeSet]
  exact hwf

/-! ### Concrete fixtures used by counterexamples and witnesses -/

/-- A concrete upstream user. -/
def demoUser : TandaUser := ⟨7, "Ada Lovelace", "ada@example.com"⟩

/-- A different concrete upstream user, for overwrite scenarios. -/
def demoUser2 : TandaUser := ⟨8, "Grace Hopper", "grace@example.com"⟩

/-- A session that has completed its callback (credentials and identity
stored) and whose downstream client negotiated PKCE (`clientCodeChallenge`
is set). -/
def demoSession : SessionData :=
  { state := "st-1", createdAt := 0, userId := some 7,
    accessToken := some "upstream-access-1",
    refreshToken := some "upstream-refresh-1",
    tokenExpiresAt := some 7200000, user := some demoUser,
    clientRedirectUri := some "https://client.example/cb",
    clientState := some "cs-1", clientCodeChallenge := some "S256-CHALLENGE" }

/-- A session store holding `demoSession` under `"sess-1"`. -/
def demoSessions : Store SessionData := [("sess-1", demoSession)]

/-- An auth-code store holding one fresh, unused code for `"sess-1"`. -/
def demoCodes : Store AuthCodeData :=
  [("code-1", { sessionId := "sess-1", createdAt := 0, used := false })]

/-- An auth-code store whose code points at a session that is absent from
`demoSessions`. -/
def demoOrphanCodes : Store AuthCodeData :=
  [("code-2", { sessionId := "sess-gone", createdAt := 0, used := false })]

/-- A session whose upstream credentials are already expired
(`tokenExpiresAt` in the past relative to `now = 0`). -/
def demoExpiredSession : SessionData :=
  { state := "st-9", createdAt := -100000, userId := some 7,
    accessToken := some "stale-access", refreshToken := some "stale-refresh",
    tokenExpiresAt := some (-5000), user := some demoUser }

/-- Store holding the expired-credentials session under `"sess-9"`. -/
def demoExpiredSessions : Store SessionData :=
  [("sess-9", demoExpiredSession)]

/-- A bearer token for `"sess-9"`, signed with `"secret"`, unexpired at
`now = 0`. -/
def demoBearer : SignedJWT :=
  { payload := { sessionId := "sess-9", userId := some 7,
                 email := some "ada@example.com" },
    secret := "secret", expiresAt := 86400000 }

/-! ### Claim theorems -/

/-- C1: the claim states that redeeming an authorization code issued for a
PKCE session with a missing or mismatched code_verifier fails and mints no
bearer credential. The code violates this: `exchangeAuthCode` has no
verifier parameter and performs no comparison against the stored
`code_challenge`, so the token endpoint mints the credential for every
verifier value — including none at all — even though the session
(`demoSession`) negotiated PKCE (`clientCodeChallenge` is set). -/
theorem pkce_verifier_ignored_at_token_endpoint :
    ∀ codeVerifier : Option String,
      (tokenEndpoint "secret" demoSessions 0 demoCodes
        (some "authorization_code") (some "code-1") codeVerifier).1 =
      .tokenResp (some (generateJWT "secret" 0 "sess-1" demoUser))
        "Bearer" 86400 := by
  intro v
  cases v <;> rfl

/-- C2 counterexample: the claim asserts the code record is purged from the
store immediately upon the first successful redemption. In fact the first
redemption succeeds but leaves the record in the store, merely marked
`used`. -/
theorem authCode_not_purged_on_first_redemption :
    (exchangeAuthCode "secret" demoSessions 0 demoCodes "code-1").1.success
      = true ∧
    storeGet "code-1"
      (exchangeAuthCode "secret" demoSessions 0 demoCodes "code-1").2 =
      some { sessionId := "sess-1", createdAt := 0, used := true } := by
  exact ⟨rfl, rfl⟩

/-- C2 (amended): the first redemption of an issued, unexpired code succeeds
and yields a bearer credential, but the record is retained (marked used)
rather than purged; the second redemption returns the alreadyUsed error —
surfaced as invalid_grant at the token endpoint — and purges the record at
that point; any later redemption fails with "Invalid authorization code". -/
theorem authCode_single_use_lifecycle
    (secret : String) (sessions : Store SessionData)
    (codes : Store AuthCodeData) (code : String)
    (d : AuthCodeData) (s : SessionData) (u : TandaUser)
    (now₁ now₂ now₃ : Int)
    (hwf : storeWF codes)
    (hc : storeGet code codes = some d)
    (hunused : d.used = false)
    (hfresh : now₁ - d.createdAt ≤ AUTH_CODE_TTL_MS)
    (hs : storeGet d.sessionId sessions = some s)
    (huser : s.user = some u)
    (hnonempty : code ≠ "") :
    (exchangeAuthCode secret sessions now₁ codes code).1 =
      { success := true,
        accessToken := some (generateJWT secret now₁ d.sessionId u),
        error := none } ∧
    storeGet code (exchangeAuthCode secret sessions now₁ codes code).2 =
      some { d with used := true } ∧
    (exchangeAuthCode secret sessions now₂
        (exchangeAuthCode secret sessions now₁ codes code).2 code).1 =
      { success := false, accessToken := none,
        error := some "Authorization code already used" } ∧
    (∀ codeVerifier,
      (tokenEndpoint secret sessions now₂
          (exchangeAuthCode secret sessions now₁ codes code).2
          (some "authorization_code") (some code) codeVerifier).1 =
        .errorResp 400 "invalid_grant"
          (some "Authorization code already used")) ∧
    storeGet code
      (exchangeAuthCode secret sessions now₂
        (exchangeAuthCode secret sessions now₁ codes code).2 code).2 = none ∧
    (exchangeAuthCode secret sessions now₃
        (exchangeAuthCode secret sessions now₂
          (exchangeAuthCode secret sessions now₁ codes code).2 code).2
        code).1 =
      { success := false, accessToken := none,
        error := some "Invalid authorization code" } := by
  have hnlt : ¬(now₁ - d.createdAt > AUTH_CODE_TTL_MS) := not_lt.mpr hfresh
  have h1 : exchangeAuthCode secret sessions now₁ codes code =
      ({ success := true,
         accessToken := some (generateJWT secret now₁ d.sessionId u),
         error := none },
       storeSet code { d with used := true } codes) := by
    unfold exchangeAuthCode
    rw [hc]
    simp [hunused, hnlt, hs, huser]
  have h3 : storeGet code (storeSet code { d with used := true } codes) =
      some { d with used := true } := storeGet_storeSet_self hc
  have h4 : exchangeAuthCode secret sessions now₂
      (storeSet code { d with used := true } codes) code =
      ({ success := false, accessToken := none,
         error := some "Authorization code already used" },
       storeDelete code (storeSet code { d with used := true } codes)) := by
    unfold exchangeAuthCode
    rw [h3]
    simp
  have h6 : storeGet code
      (storeDelete code (storeSet code { d with used := true } codes)) =
      none := storeGet_storeDelete_self (storeWF_storeSet hwf)
  have h7 : (exchangeAuthCode secret sessions now₃
      (storeDelete code (storeSet code { d with used := true } codes))
      code).1 =
      { success := false, accessToken := none,
        error := some "Invalid authorization code" } := by
    unfold exchangeAuthCode
    rw [h6]
  have hempty : code.isEmpty = false :=
    Bool.eq_false_iff.mpr
      (fun h => hnonempty ((String.isEmpty_iff code).mp h))
  refine ⟨by rw [h1], by rw [h1]; exact h3, by rw [h1]; rw [h4], ?_,
    by rw [h1]; rw [h4]; exact h6, by rw [h1]; rw [h4]; exact h7⟩
  intro codeVerifier
  rw [h1]
  unfold tokenEndpoint
  simp only [ne_eq, not_true_eq_false, if_false, strPresent, hempty,
    Bool.not_false, if_true, reduceIte]
  rw [h4]
  simp

theorem optTruthy_some (s : String) : optTruthy (some s) = !s.isEmpty := rfl

theorem isEmpty_false_of_ne {s : String} (h : s ≠ "") : s.isEmpty = false :=
  Bool.eq_false_iff.mpr (fun he => h ((String.isEmpty_iff s).mp he))

theorem encodeStateSessionId_ne_empty (sid : String) :
    encodeStateSessionId sid ≠ "" := by
  intro h
  have := congrArg String.data h
  simp [encodeStateSessionId] at this

/-- C3: the state value handed to the upstream provider is recoverable into
the originating session identifier at the callback endpoint without any
cookie: decoding inverts the encoding, and the callback's session resolution
returns the correct session id from the state alone, whatever the cookie
holds. (The encoding/decoding pair is modelled from the spec, see
decodeStateSessionId.) -/
theorem state_roundtrip_recovers_session (sid : String) (hne : sid ≠ "")
    (cookie : Option String) :
    decodeStateSessionId (encodeStateSessionId sid) = some sid ∧
    resolveCallbackSessionId (some (encodeStateSessionId sid)) cookie =
      some sid := by
  have hdec : decodeStateSessionId (encodeStateSessionId sid) = some sid := by
    have hred : decodeStateSessionId (encodeStateSessionId sid) =
        if ('.' : Char) = '.' ∧
            stateChecksumChar sid.data = stateChecksumChar sid.data then
          some (String.mk sid.data)
        else none := rfl
    rw [hred, if_pos ⟨rfl, rfl⟩]
  refine ⟨hdec, ?_⟩
  unfold resolveCallbackSessionId
  simp only [optTruthy_some,
    isEmpty_false_of_ne (encodeStateSessionId_ne_empty sid), Bool.not_false,
    if_true, Option.some_bind', hdec, isEmpty_false_of_ne hne, Bool.not_true,
    Bool.false_and, if_false]
  simp

/-- Witness for the C3 round trip at a concrete session identifier. -/
theorem state_roundtrip_recovers_session_witness :
    decodeStateSessionId (encodeStateSessionId "sess-1") = some "sess-1" ∧
    resolveCallbackSessionId (some (encodeStateSessionId "sess-1")) none =
      some "sess-1" :=
  state_roundtrip_recovers_session "sess-1" (by decide) none

/-- C4 counterexample: the claim says a second callback for an
already-succeeded session is detected and rejected, never silently
overwriting the stored identity. In fact a replayed callback with a matching
state succeeds again and silently replaces the stored user (demoUser, id 7)
with a different one (demoUser2, id 8) along with the credentials. -/
theorem second_callback_overwrites_silently :
    (handleCallback "secret"
        (fun _ => .ok ⟨"upstream-access-2", "upstream-refresh-2", 3600⟩
          demoUser2)
        demoSessions 0 "sess-1" "upcode-2" "st-1").result.success = true ∧
    storeGet "sess-1"
      (handleCallback "secret"
        (fun _ => .ok ⟨"upstream-access-2", "upstream-refresh-2", 3600⟩
          demoUser2)
        demoSessions 0 "sess-1" "upcode-2" "st-1").sessions =
      some { demoSession with
             accessToken := some "upstream-access-2",
             refreshToken := some "upstream-refresh-2",
             tokenExpiresAt := some 3600000, userId := some 8,
             user := some demoUser2 } ∧
    demoSession.user = some demoUser ∧ demoUser ≠ demoUser2 := by
  exact ⟨rfl, rfl, rfl, by decide⟩

/-- C4 (amended): handleCallback performs no at-most-once check. For any
session — including one that already stored credentials and an identity —
a further callback whose state matches runs the upstream exchange again,
succeeds, and silently overwrites the stored credentials and identity with
the new values. -/
theorem callback_overwrites_on_matching_state
    (secret : String) (upstream : String → UpstreamOutcome)
    (sessions : Store SessionData) (now : Int)
    (sessionId code returnedState : String)
    (s : SessionData) (u₁ : TandaUser) (tr : TandaTokenResponse)
    (u₂ : TandaUser)
    (hs : storeGet sessionId sessions = some s)
    (hstate : s.state = returnedState)
    (hprev : s.user = some u₁)
    (hup : upstream code = .ok tr u₂) :
    (handleCallback secret upstream sessions now sessionId code
      returnedState).result.success = true ∧
    storeGet sessionId
      (handleCallback secret upstream sessions now sessionId code
        returnedState).sessions =
      some { s with
             accessToken := some tr.access_token,
             refreshToken := some tr.refresh_token,
             tokenExpiresAt := some (now + tr.expires_in * 1000),
             userId := some u₂.id, user := some u₂ } := by
  have hcb : handleCallback secret upstream sessions now sessionId code
      returnedState =
      ⟨{ success := true, token := some (generateJWT secret now sessionId u₂),
         user := some u₂, error := none },
       storeSet sessionId
         { s with
           accessToken := some tr.access_token,
           refreshToken := some tr.refresh_token,
           tokenExpiresAt := some (now + tr.expires_in * 1000),
           userId := some u₂.id, user := some u₂ } sessions, true⟩ := by
    unfold handleCallback
    rw [hs, hup]
    simp [hstate]
  rw [hcb]
  exact ⟨rfl, storeGet_storeSet_self hs⟩

/-- Witness for the amended C4 overwrite behaviour at concrete inputs. -/
theorem callback_overwrites_witness :
    (handleCallback "secret"
        (fun _ => .ok ⟨"at2", "rt2", 3600⟩ demoUser2)
        demoSessions 0 "sess-1" "upcode-2" "st-1").result.success = true ∧
    storeGet "sess-1"
      (handleCallback "secret"
        (fun _ => .ok ⟨"at2", "rt2", 3600⟩ demoUser2)
        demoSessions 0 "sess-1" "upcode-2" "st-1").sessions =
      some { demoSession with
             accessToken := some "at2",
             refreshToken := some "rt2",
             tokenExpiresAt := some 3600000, userId := some 8,
             user := some demoUser2 } :=
  callback_overwrites_on_matching_state "secret"
    (fun _ => .ok ⟨"at2", "rt2", 3600⟩ demoUser2) demoSessions 0 "sess-1"
    "upcode-2" "st-1" demoSession demoUser ⟨"at2", "rt2", 3600⟩ demoUser2
    rfl rfl rfl rfl

/-- C5: for every existing session, in any state, a callback whose returned
state differs from the session's stored nonce fails with the CSRF mismatch
error before any upstream token exchange is attempted, leaves the session
store unchanged, and offers no retry — for every upstream oracle. -/
theorem csrf_state_mismatch_always_fatal
    (secret : String) (upstream : String → UpstreamOutcome)
    (sessions : Store SessionData) (now : Int)
    (sessionId code returnedState : String) (s : SessionData)
    (hs : storeGet sessionId sessions = some s)
    (hmismatch : s.state ≠ returnedState) :
    handleCallback secret upstream sessions now sessionId code
      returnedState =
      ⟨{ success := false, token := none, user := none,
         error := some "State mismatch - possible CSRF attack" },
       sessions, false⟩ := by
  unfold handleCallback
  rw [hs]
  simp [hmismatch]

/-- Witness for the C5 CSRF property at concrete inputs. -/
theorem csrf_state_mismatch_witness :
    handleCallback "secret" (fun _ => .fail "never reached") demoSessions 0
      "sess-1" "upcode-3" "wrong-state" =
      ⟨{ success := false, token := none, user := none,
         error := some "State mismatch - possible CSRF attack" },
       demoSessions, false⟩ :=
  csrf_state_mismatch_always_fatal "secret" (fun _ => .fail "never reached")
    demoSessions 0 "sess-1" "upcode-3" "wrong-state" demoSession rfl
    (by decide)

/-- Witness for the amended C2 lifecycle at a concrete store. -/
theorem authCode_single_use_lifecycle_witness :
    (exchangeAuthCode "secret" demoSessions 0 demoCodes "code-1").1 =
      { success := true,
        accessToken := some (generateJWT "secret" 0 "sess-1" demoUser),
        error := none } ∧
    storeGet "code-1"
      (exchangeAuthCode "secret" demoSessions 0 demoCodes "code-1").2 =
      some { sessionId := "sess-1", createdAt := 0, used := true } ∧
    (exchangeAuthCode "secret" demoSessions 0
        (exchangeAuthCode "secret" demoSessions 0 demoCodes "code-1").2
        "code-1").1 =
      { success := false, accessToken := none,
        error := some "Authorization code already used" } ∧
    (∀ codeVerifier,
      (tokenEndpoint "secret" demoSessions 0
          (exchangeAuthCode "secret" demoSessions 0 demoCodes "code-1").2
          (some "authorization_code") (some "code-1") codeVerifier).1 =
        .errorResp 400 "invalid_grant"
          (some "Authorization code already used")) ∧
    storeGet "code-1"
      (exchangeAuthCode "secret" demoSessions 0
        (exchangeAuthCode "secret" demoSessions 0 demoCodes "code-1").2
        "code-1").2 = none ∧
    (exchangeAuthCode "secret" demoSessions 0
        (exchangeAuthCode "secret" demoSessions 0
          (exchangeAuthCode "secret" demoSessions 0 demoCodes "code-1").2
          "code-1").2
        "code-1").1 =
      { success := false, accessToken := none,
        error := some "Invalid authorization code" } :=
  authCode_single_use_lifecycle "secret" demoSessions demoCodes "code-1"
    { sessionId := "sess-1", createdAt := 0, used := false } demoSession
    demoUser 0 0 0 (by decide) rfl rfl (by decide) rfl rfl (by decide)

/-- C6: with the read-only flag set, a tools/call naming a write tool is
rejected before any upstream call is issued — whatever the authentication
state — and the advertised catalog excludes every write tool. -/
theorem readonly_blocks_write_tools
    (name : String) (hname : name ∈ WRITE_TOOLS) :
    ∀ authenticated : Bool,
      (handleCallTool true authenticated (some name)).calledUpstream
        = false ∧
      (handleCallTool true authenticated (some name)).rejected = true ∧
      name ∉ handleListTools true ∧
      (executeTool true name).upstreamCalled = false ∧
      (executeTool true name).isError = true := by
  intro authenticated
  fin_cases hname <;> cases authenticated <;> exact (by decide)

/-- Witness for the C6 read-only gate at a concrete write tool, in the
authenticated state. -/
theorem readonly_blocks_write_tools_witness :
    ("tanda_delete_schedule" ∈ WRITE_TOOLS) ∧
    ((handleCallTool true true (some "tanda_delete_schedule")).calledUpstream
        = false ∧
      (handleCallTool true true (some "tanda_delete_schedule")).rejected
        = true ∧
      "tanda_delete_schedule" ∉ handleListTools true ∧
      (executeTool true "tanda_delete_schedule").upstreamCalled = false ∧
      (executeTool true "tanda_delete_schedule").isError = true) :=
  ⟨by decide, readonly_blocks_write_tools "tanda_delete_schedule"
    (by decide) true⟩

/-- C7 counterexample: the claim says the discovery document lists
authorization_code as the sole supported grant type; the code also lists
refresh_token. -/
theorem discovery_lists_refresh_token_grant :
    oauthAuthorizationServerMetadata.grant_types_supported ≠
      ["authorization_code"] := by
  decide

/-- C7 (amended): the discovery document lists authorization_code and
refresh_token as supported grant types, while the token endpoint accepts
only authorization_code and rejects every other grant type with
unsupported_grant_type. -/
theorem grant_types_advertised_and_enforced :
    oauthAuthorizationServerMetadata.grant_types_supported =
      ["authorization_code", "refresh_token"] ∧
    ∀ (secret : String) (sessions : Store SessionData) (now : Int)
      (codes : Store AuthCodeData) (grantType : Option String)
      (code codeVerifier : Option String),
      grantType ≠ some "authorization_code" →
      (tokenEndpoint secret sessions now codes grantType code
        codeVerifier).1 =
        .errorResp 400 "unsupported_grant_type"
          (some "Only authorization_code grant type is supported") := by
  refine ⟨rfl, ?_⟩
  intro secret sessions now codes grantType code codeVerifier h
  unfold tokenEndpoint
  simp [h]

/-- Witness for the amended C7 at the grant type the repository's own test
suite uses (client_credentials). -/
theorem grant_types_enforced_witness :
    some "client_credentials" ≠ some "authorization_code" ∧
    (tokenEndpoint "secret" demoSessions 0 demoCodes
        (some "client_credentials") (some "code-1") none).1 =
      .errorResp 400 "unsupported_grant_type"
        (some "Only authorization_code grant type is supported") :=
  ⟨by decide, grant_types_advertised_and_enforced.2 "secret" demoSessions 0
    demoCodes (some "client_credentials") (some "code-1") none (by decide)⟩

/-- C8 counterexample: the claim says that for a valid bearer token whose
session's upstream credentials are expired, the middleware refreshes them
before attaching the API handle. In fact, for a session whose credentials
expired 5 seconds before `now = 0`, `optionalAuth` attaches a handle still
carrying the stale stored access token, and issues zero upstream refresh
requests. -/
theorem middleware_attaches_stale_credentials :
    (optionalAuth "secret" demoExpiredSessions 0
      (some demoBearer)).upstreamRefreshCalls = 0 ∧
    (optionalAuth "secret" demoExpiredSessions 0 (some demoBearer)).auth =
      some ⟨demoBearer.payload, "sess-9",
        { accessToken := "stale-access",
          refreshToken := some "stale-refresh",
          tokenExpiresAt := some (-5000) }⟩ ∧
    demoExpiredSession.tokenExpiresAt = some (-5000) ∧ (-5000 : Int) < 0 := by
  refine ⟨rfl, by decide, rfl, by decide⟩

/-- C8 (amended): the auth resolution middleware attaches a handle built
verbatim from the session's stored credentials and performs no upstream
refresh, regardless of how near expiry those credentials are; refreshing is
deferred to the handle's 401 response interceptor. -/
theorem middleware_attaches_stored_credentials_without_refresh
    (secret : String) (sessions : Store SessionData) (now : Int)
    (token : SignedJWT) (s : SessionData) (storedAccessToken : String)
    (hsig : token.secret = secret) (hexp : now < token.expiresAt)
    (hs : storeGet token.payload.sessionId sessions = some s)
    (hat : s.accessToken = some storedAccessToken)
    (hne : storedAccessToken.isEmpty = false) :
    (optionalAuth secret sessions now
      (some token)).upstreamRefreshCalls = 0 ∧
    (optionalAuth secret sessions now (some token)).auth =
      some ⟨token.payload, token.payload.sessionId,
        TandaClient.create now storedAccessToken s.refreshToken
          (match s.tokenExpiresAt with
           | some t => if t = 0 then none else some ((t - now).fdiv 1000)
           | none => none)⟩ := by
  unfold optionalAuth verifyJWT getTandaClient
  simp [hsig, hexp, hs, hat, hne]

/-- Witness for the amended C8 at the expired-credentials fixture. -/
theorem middleware_no_refresh_witness :
    (optionalAuth "secret" demoExpiredSessions 0
      (some demoBearer)).upstreamRefreshCalls = 0 ∧
    (optionalAuth "secret" demoExpiredSessions 0 (some demoBearer)).auth =
      some ⟨demoBearer.payload, demoBearer.payload.sessionId,
        TandaClient.create 0 "stale-access"
          demoExpiredSession.refreshToken
          (match demoExpiredSession.tokenExpiresAt with
           | some t => if t = 0 then none else some ((t - 0).fdiv 1000)
           | none => none)⟩ :=
  middleware_attaches_stored_credentials_without_refresh "secret"
    demoExpiredSessions 0 demoBearer demoExpiredSession "stale-access" rfl
    (by decide) rfl rfl (by decide)

/-- C9: a 401-triggered upstream token refresh during request handling
updates only the request's client instance — the new access token, refresh
token and expiry land on the instance — while the session store is left
unchanged, so a later request for the same session starts again from the
session's originally stored access token. -/
theorem refresh_updates_instance_not_session
    (sessions : Store SessionData) (now now' : Int) (sessionId : String)
    (s : SessionData) (storedAccessToken rt : String)
    (resp : TandaTokenResponse)
    (hs : storeGet sessionId sessions = some s)
    (hat : s.accessToken = some storedAccessToken)
    (hne : storedAccessToken.isEmpty = false)
    (hrt : s.refreshToken = some rt) :
    (requestWithUpstream401 sessions now sessionId resp).2 = sessions ∧
    (requestWithUpstream401 sessions now sessionId resp).1 =
      some { accessToken := resp.access_token,
             refreshToken := some resp.refresh_token,
             tokenExpiresAt := some (now + resp.expires_in * 1000) } ∧
    (getTandaClient sessions now' sessionId).map
      TandaClientState.accessToken = some storedAccessToken := by
  unfold requestWithUpstream401 getTandaClient refreshAccessToken
    TandaClient.create
  simp [hs, hat, hne, hrt]

/-- Witness for C9 at the concrete expired-credentials fixture. -/
theorem refresh_updates_instance_not_session_witness :
    (requestWithUpstream401 demoExpiredSessions 0 "sess-9"
      ⟨"fresh-access", "fresh-refresh", 7200⟩).2 = demoExpiredSessions ∧
    (requestWithUpstream401 demoExpiredSessions 0 "sess-9"
      ⟨"fresh-access", "fresh-refresh", 7200⟩).1 =
      some { accessToken := "fresh-access",
             refreshToken := some "fresh-refresh",
             tokenExpiresAt := some 7200000 } ∧
    (getTandaClient demoExpiredSessions 60000 "sess-9").map
      TandaClientState.accessToken = some "stale-access" :=
  refresh_updates_instance_not_session demoExpiredSessions 0 60000 "sess-9"
    demoExpiredSession "stale-access" "stale-refresh"
    ⟨"fresh-access", "fresh-refresh", 7200⟩ rfl rfl (by decide) rfl

/-- C10: redeeming an unused, unexpired code whose session is missing or has
no stored user returns the "Session not found" failure without minting a
credential, yet the code is marked used before the session lookup — the
store is changed on this error path — so the second redemption returns
alreadyUsed (purging the record) and any later one "Invalid authorization
code". -/
theorem orphan_code_marked_used_on_session_missing
    (secret : String) (sessions : Store SessionData)
    (codes : Store AuthCodeData) (code : String) (d : AuthCodeData)
    (now₁ now₂ now₃ : Int)
    (hwf : storeWF codes)
    (hc : storeGet code codes = some d)
    (hunused : d.used = false)
    (hfresh : now₁ - d.createdAt ≤ AUTH_CODE_TTL_MS)
    (hnouser : (storeGet d.sessionId sessions).bind SessionData.user
      = none) :
    (exchangeAuthCode secret sessions now₁ codes code).1 =
      { success := false, accessToken := none,
        error := some "Session not found" } ∧
    storeGet code (exchangeAuthCode secret sessions now₁ codes code).2 =
      some { d with used := true } ∧
    (exchangeAuthCode secret sessions now₂
        (exchangeAuthCode secret sessions now₁ codes code).2 code).1 =
      { success := false, accessToken := none,
        error := some "Authorization code already used" } ∧
    (exchangeAuthCode secret sessions now₃
        (exchangeAuthCode secret sessions now₂
          (exchangeAuthCode secret sessions now₁ codes code).2 code).2
        code).1 =
      { success := false, accessToken := none,
        error := some "Invalid authorization code" } := by
  have hnlt : ¬(now₁ - d.createdAt > AUTH_CODE_TTL_MS) := not_lt.mpr hfresh
  have h1 : exchangeAuthCode secret sessions now₁ codes code =
      ({ success := false, accessToken := none,
         error := some "Session not found" },
       storeSet code { d with used := true } codes) := by
    unfold exchangeAuthCode
    rw [hc]
    rcases hsess : storeGet d.sessionId sessions with _ | s
    · simp [hunused, hnlt, hsess]
    · rw [hsess, Option.some_bind'] at hnouser
      simp [hunused, hnlt, hsess, hnouser]
  have h3 : storeGet code (storeSet code { d with used := true } codes) =
      some { d with used := true } := storeGet_storeSet_self hc
  have h4 : exchangeAuthCode secret sessions now₂
      (storeSet code { d with used := true } codes) code =
      ({ success := false, accessToken := none,
         error := some "Authorization code already used" },
       storeDelete code (storeSet code { d with used := true } codes)) := by
    unfold exchangeAuthCode
    rw [h3]
    simp
  have h6 : storeGet code
      (storeDelete code (storeSet code { d with used := true } codes)) =
      none := storeGet_storeDelete_self (storeWF_storeSet hwf)
  have h7 : (exchangeAuthCode secret sessions now₃
      (storeDelete code (storeSet code { d with used := true } codes))
      code).1 =
      { success := false, accessToken := none,
        error := some "Invalid authorization code" } := by
    unfold exchangeAuthCode
    rw [h6]
  exact ⟨by rw [h1], by rw [h1]; exact h3, by rw [h1, h4],
    by rw [h1, h4]; exact h7⟩

/-- Witness for C10 at a code referencing a session absent from the store. -/
theorem orphan_code_witness :
    (exchangeAuthCode "secret" demoSessions 0 demoOrphanCodes "code-2").1 =
      { success := false, accessToken := none,
        error := some "Session not found" } ∧
    storeGet "code-2"
      (exchangeAuthCode "secret" demoSessions 0 demoOrphanCodes
        "code-2").2 =
      some { sessionId := "sess-gone", createdAt := 0, used := true } ∧
    (exchangeAuthCode "secret" demoSessions 0
        (exchangeAuthCode "secret" demoSessions 0 demoOrphanCodes
          "code-2").2 "code-2").1 =
      { success := false, accessToken := none,
        error := some "Authorization code already used" } ∧
    (exchangeAuthCode "secret" demoSessions 0
        (exchangeAuthCode "secret" demoSessions 0
          (exchangeAuthCode "secret" demoSessions 0 demoOrphanCodes
            "code-2").2 "code-2").2 "code-2").1 =
      { success := false, accessToken := none,
        error := some "Invalid authorization code" } :=
  orphan_code_marked_used_on_session_missing "secret" demoSessions
    demoOrphanCodes "code-2"
    { sessionId := "sess-gone", createdAt := 0, used := false } 0 0 0
    (by decide) rfl rfl (by decide) rfl

end Tanda
